import Mathlib

/-!
Verification development for the matterircd core: the IRC server registry
(src/mm-go-irckit/server.go) and the Slack event translator
(src/unnamed/part_000, package slack).  Go maps are embedded as functions
`String → Option _` (a missing key reads as `none`, or as `""` for the
`map[string]string` case, matching the Go zero value); Go struct pointers are
embedded as plain structures carrying an allocation tag where pointer identity
matters; channel sends are collected into result lists.
-/

/-! ### Go string helpers

Structurally recursive embeddings of the Go standard library string
operations used by the sources, working on the underlying character lists so
that concrete instances evaluate inside the kernel.  The strings in play
(nicks, channel ids, timestamps) are ASCII, where Go byte semantics and
character semantics agree. -/

/-- Split a character list at every occurrence of `c`; Go strings.Split with
a one-character separator (an empty input yields one empty piece). -/
def splitListOn (c : Char) : List Char → List String
  | [] => [""]
  | a :: rest =>
    let r := splitListOn c rest
    if a = c then "" :: r
    else
      match r with
      | [] => [String.mk [a]]
      | hd :: tl => String.mk (a :: hd.data) :: tl

/-- Go strings.Split(s, newline). -/
def goSplitLines (s : String) : List String := splitListOn '\n' s.data

/-- Go strings.HasPrefix. -/
def goStartsWith (s pre : String) : Bool := pre.data.isPrefixOf s.data

/-- Go strings.ToLower, on the ASCII subset. -/
def goToLower (s : String) : String := String.mk (s.data.map Char.toLower)

/-- Lexicographic strictly-below on character lists; Go byte-wise string
comparison on the ASCII subset. -/
def goListLess : List Char → List Char → Bool
  | [], [] => false
  | [], _ :: _ => true
  | _ :: _, [] => false
  | a :: as, b :: bs =>
    if a < b then true else if b < a then false else goListLess as bs

/-- The Go string comparison a below b. -/
def goStrLess (a b : String) : Bool := goListLess a.data b.data

namespace Irckit

/-- ID normalizes a name for use as a registry key (server.go line 21). -/
def ID (s : String) : String := goToLower s

/-- One IRC user as far as the registry claims need it: the mutable Nick,
USER fields and buffered PASS credentials (user.go is outside src; only the
fields read by server.go are modelled). -/
structure User where
  nick : String
  usern : String
  real : String
  pass : Option (List String)
deriving DecidableEq

/-- The registry key of a user: `ID(u.Nick)` (user.go ID method, as read by
server.go via `u.ID()`). -/
def User.uid (u : User) : String := ID u.nick

/-- One channel. Go compares channels by interface (pointer) equality in
UnlinkChannel; the `tag` field carries that allocation identity, made fresh by
the server allocation counter at construction. Modelled from the spec:
channel.go is absent from src; per spec section 3 a channel is dual-keyed by
backend id and display name, so `String()` is the display name and `ID()` the
backend id. -/
structure Chan where
  cid : String
  name : String
  service : String
  priv : Bool
  tag : Nat
deriving DecidableEq

/-- Channel metadata returned by the Bridge (bridge.ChannelInfo). -/
structure ChanInfo where
  priv : Bool
deriving DecidableEq

/-- The Bridge calls the server makes during channel construction
(s.u.br.Protocol / GetChannelName / GetChannel); a `none` result of
`getChannelInfo` is the error case. -/
structure BridgeEnv where
  protoName : String
  getChannelName : String → String
  getChannelInfo : String → Option ChanInfo

/-- Registry state: the `users` and `channels` maps of the `server` struct,
plus the allocation counter for fresh channel identities. `chanMembers` is
the per-channel member set held by the channel objects themselves; modelled
from the spec (section 3, `members: set<User>`), since channel.go is absent
from src; members are recorded by their registry uid. `maxNickLen` is the
MaxNickLen configuration (default 32). -/
structure ServerState where
  users : String → Option User
  channels : String → Option Chan
  chanMembers : List (String × List String)
  nextTag : Nat
  maxNickLen : Nat

/-- The empty registry with default configuration. -/
def emptyServer : ServerState :=
  { users := fun _ => none, channels := fun _ => none, chanMembers := [],
    nextTag := 0, maxNickLen := 32 }

/-- server.Channel (server.go lines 226-257): return the stored channel for
`cid`, or construct one from Bridge metadata and store it under both the
backend id and the display name (id written first, name second). -/
def channelGet (env : BridgeEnv) (st : ServerState) (cid : String) :
    Chan × ServerState :=
  match st.channels cid with
  | some ch => (ch, st)
  | none =>
    let name := env.getChannelName cid
    let info := (env.getChannelInfo cid).getD { priv := false }
    let ch : Chan :=
      { cid := cid, name := name, service := env.protoName,
        priv := info.priv, tag := st.nextTag }
    let m1 : String → Option Chan := fun k => if k = cid then some ch else st.channels k
    let m2 : String → Option Chan := fun k => if k = name then some ch else m1 k
    (ch, { st with channels := m2, nextTag := st.nextTag + 1 })

/-- server.UnlinkChannel (server.go lines 260-269): look up the entry stored
under the display name; only when it is the very channel being unlinked are
the name entry and then the id entry deleted. -/
def unlinkChannel (st : ServerState) (ch : Chan) : ServerState :=
  match st.channels ch.name with
  | some stored =>
    if stored = ch then
      { st with channels := fun k => if k = ch.name ∨ k = ch.cid then none else st.channels k }
    else st
  | none => st

/-- Result of server.Quit (server.go lines 283-290): the new registry state,
plus whether the connection close and the Bridge logout were invoked. -/
structure QuitOut where
  st : ServerState
  connClosed : Bool
  bridgeLogout : Bool

/-- server.Quit (server.go lines 283-290): `go u.Close()`, delete the user
from the users map under its uid, then `u.br.Logout()`.  u.Close lives in
user.go, absent from src; modelled from the spec (section 5: closing a
connection ends its command loop) as pure connection teardown with no
registry effect.  Note the body touches neither the channels map nor any
channel membership. -/
def quit (st : ServerState) (u : User) (_message : String) : QuitOut :=
  { st := { st with users := fun k => if k = u.uid then none else st.users k },
    connClosed := true,
    bridgeLogout := true }

/-- An encoded outbound IRC message: recipient (by current nick), origin of
the message (empty for the server), command, params, trailing. -/
structure IrcOut where
  toNick : String
  pfx : String
  command : String
  params : List String
  trailing : String
deriving DecidableEq

def ERR_NICKNAMEINUSE : String := "433"

/-- The nick truncation at the head of RenameUser (server.go lines 188-190).
Go slices bytes; the nicks in play are ASCII, so character count is used. -/
def truncNick (maxLen : Nat) (n : String) : String :=
  if n.length > maxLen then n.take maxLen else n

/-- u.VisibleTo (user.go, absent from src). Modelled from the spec
(section 4.1): every other user sharing at least one channel with u,
collected from the per-channel member lists by uid. -/
def visibleTo (st : ServerState) (uid : String) : List String :=
  (((st.chanMembers.filter (fun p => uid ∈ p.2)).flatMap (fun p => p.2)).filter
    (fun v => v ≠ uid)).dedup

/-- server.RenameUser (server.go lines 187-215): truncate the new nick, fail
with a 433 reply when the normalized nick is already a key, otherwise delete
the old key, set the nick, insert under the new key, and send the NICK change
(stamped with the old identity) to the user and to every user visible to it.  Returns
the new state, the success flag, and the encoded messages in send order. -/
def renameUser (st : ServerState) (u : User) (newNick : String) :
    ServerState × Bool × List IrcOut :=
  let nn := truncNick st.maxNickLen newNick
  match st.users (ID nn) with
  | some _ =>
    (st, false,
      [{ toNick := u.nick, pfx := "", command := ERR_NICKNAMEINUSE,
         params := [nn], trailing := "Nickname is already in use" }])
  | none =>
    let u2 : User := { u with nick := nn }
    let st2 : ServerState :=
      { st with users := fun k =>
          if k = ID nn then some u2 else if k = u.uid then none else st.users k }
    let msg : String → IrcOut := fun t =>
      { toNick := t, pfx := u.nick, command := "NICK", params := [nn], trailing := "" }
    (st2, true, msg u.nick :: (visibleTo st u.uid).map msg)

/-! ### Handshake (server.go lines 402-486)

The handshake loop consumes inputs from a select over the decode channel and
a 10 second timer.  An input is either a decoded message, a nil message
(decode failure), or the firing of the 10 second timer; each channel receive
(message or nil) decrements the budget counter that starts at
handshakeMsgTolerance, and the budget is checked before the message is
examined, so the final tolerated receive is consumed but never processed.
The welcome burst and the PASS-triggered backend login concern the IRC wire
encoding and the Bridge, both outside this model; a welcome encode failure
(connection write error) is likewise out of scope, so a completed
registration is modelled as immediate success. -/

def handshakeMsgTolerance : Nat := 20

/-- A decoded inbound IRC message as the handshake reads it. -/
structure IrcMsg where
  command : String
  params : List String
  trailing : String
deriving DecidableEq

/-- One arrival at the handshake select: the timer firing, a nil decode, or a
message. -/
inductive HIn where
  | timeout
  | nilMsg
  | msg (m : IrcMsg)
deriving DecidableEq

/-- Handshake configuration: the MaxNickLen setting and the users map as the
handshake starts. -/
structure HCfg where
  maxNickLen : Nat
  users0 : String → Option User

/-- Handshake progress: the NICK/USER/PASS fields accumulated on the
connecting user, the remaining message budget, and the users map. -/
structure HState where
  nick : String
  usern : String
  real : String
  pass : Option (List String)
  budget : Nat
  users : String → Option User

def hInit (env : HCfg) : HState :=
  { nick := "", usern := "", real := "", pass := none,
    budget := handshakeMsgTolerance, users := env.users0 }

/-- The user s.add inserts on successful registration. -/
def mkUser (st : HState) : User :=
  { nick := st.nick, usern := st.usern, real := st.real, pass := st.pass }

/-- The NICK/PASS trailing adjustment at the head of message processing
(server.go lines 427-429). -/
def adjParams (m : IrcMsg) : IrcMsg :=
  if (m.command = "NICK" ∨ m.command = "PASS") ∧ m.trailing ≠ ""
  then { m with params := m.params ++ [m.trailing] } else m

/-- The NICK/USER/PASS field switch (server.go lines 434-444). -/
def procFields (st : HState) (m : IrcMsg) : HState :=
  if m.command = "NICK" then { st with nick := m.params.headD "" }
  else if m.command = "USER" then
    { st with usern := m.params.headD "", real := m.trailing }
  else if m.command = "PASS" then { st with pass := some m.params }
  else st

/-- Processing of one non-nil message inside the handshake loop (server.go
lines 425-480): `.inl` continues the loop, `.inr` is completed registration.
The JOIN not-registered reply and the nick-in-use reply are wire output,
not state, and are not recorded here. -/
def procMsg (maxLen : Nat) (st : HState) (m : IrcMsg) : HState ⊕ HState :=
  let m2 := adjParams m
  if m2.params = [] then .inl st
  else
    let st2 := procFields st m2
    if st2.nick = "" ∨ st2.usern = "" then .inl st2
    else
      let st3 := { st2 with nick := truncNick maxLen st2.nick }
      match st3.users (ID st3.nick) with
      | some _ => .inl st3
      | none =>
        .inr { st3 with users := fun k =>
                 if k = ID st3.nick then some (mkUser st3) else st3.users k }

/-- Handshake outcome: successful registration, terminal failure
(ErrHandshakeFailed), or still waiting when the recorded arrivals run out. -/
inductive HRes where
  | ok (st : HState)
  | failed (users : String → Option User)
  | pending (st : HState)

/-- The handshake loop (server.go lines 410-485) over a list of recorded
arrivals. -/
def hrun (maxLen : Nat) : HState → List HIn → HRes
  | st, [] => .pending st
  | st, HIn.timeout :: _ => .failed st.users
  | st, HIn.nilMsg :: rest =>
    if st.budget - 1 = 0 then .failed st.users
    else hrun maxLen { st with budget := st.budget - 1 } rest
  | st, HIn.msg m :: rest =>
    if st.budget - 1 = 0 then .failed st.users
    else
      match procMsg maxLen { st with budget := st.budget - 1 } m with
      | .inl st2 => hrun maxLen st2 rest
      | .inr st2 => .ok st2

/-- What server.Connect (lines 272-280) leaves behind: whether it returned an
error, whether it closed the connection, and the users map. -/
structure ConnOut where
  handshakeErr : Bool
  connClosed : Bool
  users : String → Option User

/-- server.Connect over a recorded arrival list: on handshake error the user
connection is closed and the error returned. -/
def connectRun (env : HCfg) (tr : List HIn) : ConnOut :=
  match hrun env.maxNickLen (hInit env) tr with
  | .ok st => { handshakeErr := false, connClosed := false, users := st.users }
  | .failed us => { handshakeErr := true, connClosed := true, users := us }
  | .pending st => { handshakeErr := false, connClosed := false, users := st.users }

end Irckit

namespace SlackB

/-! ### The Slack event translator (src/unnamed/part_000, package slack)

External calls (rtm.GetUserInfo, sc.GetUserInfo, GetUsersInConversation,
GetBotInfo) and the helpers defined outside src (formatTS, cleanupMessage,
isValidNick, the spew formatting of an empty message) are environment
parameters; an Option result of a lookup is `none` exactly when the Go call
returns an error or nil.  Events pushed onto s.eventChan are collected into
the returned list, in send order. -/

/-- bridge.UserInfo as built by createUser. -/
structure UserInfo where
  nick : String
  user : String
  real : String
  host : String
  roles : String
  displayName : String
  ghost : Bool
  me : Bool
  username : String
  firstName : String
  lastName : String
  teamID : String
deriving DecidableEq

/-- The Go zero value `&bridge.UserInfo\x7b\x7d`. -/
def emptyUserInfo : UserInfo :=
  { nick := "", user := "", real := "", host := "", roles := "",
    displayName := "", ghost := false, me := false, username := "",
    firstName := "", lastName := "", teamID := "" }

/-- The slack.UserProfile fields read by this package. -/
structure SlackProfile where
  displayName : String
  realName : String
  firstName : String
  lastName : String
deriving DecidableEq

/-- The slack.User fields read by this package. -/
structure SlackUser where
  id : String
  teamID : String
  name : String
  realName : String
  profile : SlackProfile
deriving DecidableEq

/-- Static context of one Slack connection: configuration flags, own
identity (s.sinfo), and the out-of-src helpers as abstract functions. -/
structure SlackCfg where
  preferNickname : Bool
  useDisplayName : Bool
  isValidNick : String → Bool
  myID : String
  myTeamID : String
  formatTS : String → String
  cleanup : String → String

/-- External lookups observed during one event: rtm.GetUserInfo,
sc.GetUserInfo, GetBotInfo (bot name), GetUsersInConversation. -/
structure SlackObs where
  getUserInfo : String → Option SlackUser
  apiGetUser : String → Option SlackUser
  getBotInfo : String → Option String
  convMembers : String → List String

/-- Mutable per-connection state read by the translator: the susers cache
and the msgLast map (a Go map[string]string, missing key reads "").
`msgLastAfterWait` is the same map as observed at the re-read after the
100 ms sleep; a sequential execution has it equal to `msgLast`. -/
structure SlackSt where
  susers : String → Option SlackUser
  msgLast : String → String
  msgLastAfterWait : String → String

/-- createUser (part_000 lines 856-888): a nil slack user becomes the zero
UserInfo; otherwise the nick prefers the profile display name when configured
and valid. -/
def createUser (cfg : SlackCfg) (su : Option SlackUser) : UserInfo :=
  match su with
  | none => emptyUserInfo
  | some u =>
    let nick :=
      if (cfg.preferNickname || cfg.useDisplayName) && cfg.isValidNick u.profile.displayName
      then u.profile.displayName else u.name
    { nick := nick, user := u.id, real := u.realName, host := "host",
      roles := "", displayName := u.profile.displayName, ghost := true,
      me := u.id = cfg.myID, username := u.profile.realName,
      firstName := u.profile.firstName, lastName := u.profile.lastName,
      teamID := cfg.myTeamID }

/-- getSlackUser (part_000 lines 913-931): cache hit, else API lookup, nil on
error.  The cache insertion on an API hit does not change the returned value
and is not tracked. -/
def getSlackUser (obs : SlackObs) (st : SlackSt) (userID : String) :
    Option SlackUser :=
  match st.susers userID with
  | some u => some u
  | none => obs.apiGetUser userID

/-- s.GetUser (part_000 lines 366-368). -/
def getUser (cfg : SlackCfg) (obs : SlackObs) (st : SlackSt) (userID : String) :
    UserInfo :=
  createUser cfg (getSlackUser obs st userID)

/-- Events sent to s.eventChan, as far as the claims need them. -/
inductive BEvent where
  | channelMessage (text : String) (channelID : String) (sender : UserInfo)
  | directMessage (text : String) (channelID : String) (sender : UserInfo)
      (receiver : UserInfo)
deriving DecidableEq

/-- The own-message echo check (part_000 lines 732-744): read msgLast for the
channel; when the recorded id compares below the event timestamp, sleep
100 ms and read once more; suppress when the finally read id equals the event
timestamp. -/
structure EchoDecision where
  waited : Bool
  suppress : Bool
deriving DecidableEq

def echoCheck (st : SlackSt) (channel timestamp : String) : EchoDecision :=
  let lastmsg := st.msgLast channel
  if goStrLess lastmsg timestamp then
    { waited := true, suppress := st.msgLastAfterWait channel == timestamp }
  else
    { waited := false, suppress := lastmsg == timestamp }

/-- The receiver resolution of the direct-message branch (part_000 lines
831-845 and 584-599): when the sender ghost is the local account, the
receiver becomes the ghost of the last conversation member different from
GetMe().User. -/
def dmReceiver (cfg : SlackCfg) (obs : SlackObs) (channelID : String)
    (ghost : UserInfo) : UserInfo :=
  if ghost.me then
    let meUser := (createUser cfg (obs.apiGetUser cfg.myID)).user
    (obs.convMembers channelID).foldl
      (fun r member =>
        if member = meUser then r else createUser cfg (obs.getUserInfo member))
      ghost
  else ghost

/-- handleActionMisc (part_000 lines 573-614): resolve the acting user, drop
the event silently when the lookup fails, otherwise send one direct or
channel message naming the action. -/
def handleActionMisc (cfg : SlackCfg) (obs : SlackObs) (userID channelID msg : String) :
    List BEvent :=
  match obs.getUserInfo userID with
  | none => []
  | some suser =>
    let ghost := createUser cfg (some suser)
    if goStartsWith channelID "D" then
      [BEvent.directMessage msg channelID ghost (dmReceiver cfg obs channelID ghost)]
    else
      [BEvent.channelMessage msg channelID ghost]

/-- The ReactionAddedEvent arm of handleSlack (part_000 lines 527-531). -/
def handleReactionAdded (cfg : SlackCfg) (obs : SlackObs)
    (user channel itemTimestamp reaction : String) : List BEvent :=
  let ts := cfg.formatTS itemTimestamp
  handleActionMisc cfg obs user channel
    ("[M " ++ ts ++ "] Added reaction :" ++ reaction ++ ":")

/-- The ReactionRemovedEvent arm of handleSlack (part_000 lines 532-536). -/
def handleReactionRemoved (cfg : SlackCfg) (obs : SlackObs)
    (user channel itemTimestamp reaction : String) : List BEvent :=
  let ts := cfg.formatTS itemTimestamp
  handleActionMisc cfg obs user channel
    ("[M " ++ ts ++ "] Removed reaction :" ++ reaction ++ ":")

/-- slack.Attachment fields read when flattening a message. -/
structure MsgAttachment where
  pretext : String
  text : String
deriving DecidableEq

/-- slack.File fields read when flattening a message. -/
structure MsgFile where
  mode : String
  name : String
  title : String
  filetype : String
  urlPrivate : String
deriving DecidableEq

/-- The SubMessage of a message_changed event. -/
structure SubMsg where
  user : String
  text : String
  timestamp : String
deriving DecidableEq

/-- The slack.MessageEvent fields read by handleSlackActionPost. -/
structure MessageEvent where
  user : String
  channel : String
  timestamp : String
  threadTimestamp : String
  subType : String
  subMessage : Option SubMsg
  deletedTimestamp : String
  botID : String
  username : String
  text : String
  attachments : List MsgAttachment
  files : List MsgFile
deriving DecidableEq

/-- The attachment body loop (part_000 lines 784-790): each row is quoted;
once the row index exceeds 4 the truncation marker is appended and the loop
stops. -/
def attachBodyLines : Nat → List String → List String
  | _, [] => []
  | i, row :: rest =>
    if i > 4 then ["> " ++ row, "> ..."]
    else ("> " ++ row) :: attachBodyLines (i + 1) rest

/-- The flattening of one attachment body text. -/
def flattenAttachBody (t : String) : List String :=
  attachBodyLines 0 (goSplitLines t)

/-- The cap on rendered attachment body rows: the loop keeps the rows at
indices 0 through 5 before truncating, hence six rows. -/
def attachLineCap : Nat := 6

/-- getSlackUserFromMessage (part_000 lines 652-694). -/
def getSlackUserFromMessage (cfg : SlackCfg) (obs : SlackObs)
    (rmsg : MessageEvent) : Option SlackUser :=
  let usr := if rmsg.subType = "message_changed"
             then ((rmsg.subMessage.map (fun sm => sm.user)).getD "")
             else rmsg.user
  let usr := if rmsg.subType = "message_deleted" then "USLACKBOT" else usr
  if rmsg.subType = "bot_message" then
    let base : SlackUser :=
      { id := rmsg.botID, teamID := cfg.myTeamID, name := rmsg.username,
        realName := "",
        profile := { displayName := "", realName := "bot",
                     firstName := "bot", lastName := "bot" } }
    if rmsg.username = "" then
      let bn := (obs.getBotInfo rmsg.botID).getD "bot"
      some { base with name := bn, profile := { base.profile with displayName := bn } }
    else
      some base
  else
    obs.getUserInfo usr

/-- The msgs flattening of handleSlackActionPost (part_000 lines 766-814):
body lines, attachment pretext and capped body, file descriptions, the
thread marker on the first line, and the message_changed append with its
change marker.  Returns the lines and the msghandled flag. -/
def buildMsgs (cfg : SlackCfg) (rmsg : MessageEvent) : List String × Bool :=
  let acc : List String × Bool :=
    if rmsg.text ≠ "" then (goSplitLines rmsg.text, true) else ([], false)
  let acc := rmsg.attachments.foldl
    (fun (acc : List String × Bool) attach =>
      let acc := if attach.pretext ≠ ""
                 then (acc.1 ++ goSplitLines attach.pretext, true) else acc
      if attach.text = "" then acc
      else (acc.1 ++ flattenAttachBody attach.text, true))
    acc
  let acc := rmsg.files.foldl
    (fun (acc : List String × Bool) file =>
      (acc.1 ++ ["Uploaded " ++ file.mode ++ " " ++ file.name ++ " / " ++
        file.title ++ " (" ++ file.filetype ++ "): " ++ file.urlPrivate], true))
    acc
  let acc : List String × Bool :=
    if acc.2 ∧ rmsg.threadTimestamp ≠ "" then
      match acc.1 with
      | [] => acc
      | hd :: tl =>
        (("[T " ++ cfg.formatTS rmsg.threadTimestamp ++ "] " ++ hd) :: tl, acc.2)
    else acc
  if rmsg.subType = "message_changed" then
    let sm := rmsg.subMessage.getD { user := "", text := "", timestamp := "" }
    let ms := acc.1 ++ goSplitLines sm.text
    match ms with
    | [] => ([], true)
    | hd :: tl => (("[C " ++ cfg.formatTS sm.timestamp ++ "] " ++ hd) :: tl, true)
  else acc

/-- The spew rendering of a message with no usable text (part_000 line 824);
the formatting itself is out of scope. -/
def emptyFmt (rmsg : MessageEvent) : String := "Empty: " ++ rmsg.timestamp

/-- handleSlackActionPost (part_000 lines 728-854): own-message echo
suppression, message_deleted rewriting, user resolution (drop on failure),
flattening, and per-line routing to a direct or channel message. -/
def handleSlackActionPost (cfg : SlackCfg) (obs : SlackObs) (st : SlackSt)
    (rmsg : MessageEvent) : List BEvent :=
  if rmsg.user = cfg.myID ∧ (echoCheck st rmsg.channel rmsg.timestamp).suppress = true
  then []
  else
    let rmsg := if rmsg.subType = "message_deleted"
      then { rmsg with text :=
               "[M " ++ cfg.formatTS rmsg.deletedTimestamp ++ "] Message deleted" }
      else rmsg
    match getSlackUserFromMessage cfg obs rmsg with
    | none => []
    | some suser =>
      let ghost := createUser cfg (some suser)
      let acc := buildMsgs cfg rmsg
      acc.1.map (fun m =>
        let m := cfg.cleanup m
        let m := if acc.2 then m else emptyFmt rmsg
        if goStartsWith rmsg.channel "D" then
          BEvent.directMessage m rmsg.channel ghost (dmReceiver cfg obs rmsg.channel ghost)
        else
          BEvent.channelMessage m rmsg.channel ghost)

end SlackB

/-! ### Concrete instances

Closed registry states, configurations and events used by the witness and
counterexample theorems below. -/

namespace Irckit

/-- A bridge that reports the same display name for every channel id; the
registry has no guard against this. -/
def envDup : BridgeEnv :=
  { protoName := "slack", getChannelName := fun _ => "#dup",
    getChannelInfo := fun _ => none }

def chD1 : Chan := (channelGet envDup emptyServer "C1").1

def stD1 : ServerState := (channelGet envDup emptyServer "C1").2

def chD2 : Chan := (channelGet envDup stD1 "C2").1

def stD2 : ServerState := (channelGet envDup stD1 "C2").2

/-- A bridge naming channel C1 as town. -/
def envTown : BridgeEnv :=
  { protoName := "slack", getChannelName := fun _ => "#town",
    getChannelInfo := fun _ => some { priv := false } }

def chT1 : Chan := (channelGet envTown emptyServer "C1").1

def stT1 : ServerState := (channelGet envTown emptyServer "C1").2

def userAlice : User := { nick := "alice", usern := "alice", real := "Alice", pass := none }

def userBob : User := { nick := "Bob", usern := "bob", real := "Bob", pass := none }

def userMixed : User := { nick := "Alice", usern := "alice", real := "Alice", pass := none }

/-- A registry holding alice, member of channel C1. -/
def stQuit : ServerState :=
  { users := fun k => if k = "alice" then some userAlice else none,
    channels := fun k => if k = "C1" then some chT1 else none,
    chanMembers := [("C1", ["alice"])], nextTag := 1, maxNickLen := 32 }

/-- A registry holding alice and Bob, sharing channel C1. -/
def stRen : ServerState :=
  { users := fun k =>
      if k = "alice" then some userAlice
      else if k = "bob" then some userBob else none,
    channels := fun k => if k = "C1" then some chT1 else none,
    chanMembers := [("C1", ["alice", "bob"])], nextTag := 1, maxNickLen := 32 }

/-- A registry holding the mixed-case Alice under key alice. -/
def stSelf : ServerState :=
  { users := fun k => if k = "alice" then some userMixed else none,
    channels := fun _ => none, chanMembers := [], nextTag := 0, maxNickLen := 32 }

/-- Handshake configuration over an empty registry. -/
def envH : HCfg := { maxNickLen := 32, users0 := fun _ => none }

/-- A message that makes no registration progress. -/
def pingMsg : IrcMsg := { command := "PING", params := ["x"], trailing := "" }

/-- Nineteen consumed messages: the whole budget but one. -/
def pre19 : List HIn := List.replicate 19 (HIn.msg pingMsg)

/-- The handshake state after pre19: no identity, one receive left. -/
def st19 : HState :=
  { nick := "", usern := "", real := "", pass := none, budget := 1,
    users := envH.users0 }

end Irckit

namespace SlackB

/-- A translator configuration with identity helpers: the local account is
UME on team T1, display names are not preferred, formatTS and cleanupMessage
act as the identity on the concrete inputs below. -/
def cfgW : SlackCfg :=
  { preferNickname := false, useDisplayName := false,
    isValidNick := fun _ => false, myID := "UME", myTeamID := "T1",
    formatTS := fun s => s, cleanup := fun s => s }

def meUser : SlackUser :=
  { id := "UME", teamID := "T1", name := "me", realName := "Me",
    profile := { displayName := "", realName := "", firstName := "", lastName := "" } }

def reactUser : SlackUser :=
  { id := "U7", teamID := "T1", name := "carol", realName := "Carol",
    profile := { displayName := "", realName := "", firstName := "", lastName := "" } }

/-- Lookups: UME and U7 resolve over the RTM connection, nothing else does. -/
def obsW : SlackObs :=
  { getUserInfo := fun u =>
      if u = "UME" then some meUser else if u = "U7" then some reactUser else none,
    apiGetUser := fun _ => none,
    getBotInfo := fun _ => none,
    convMembers := fun _ => [] }

/-- State after the local send path recorded message id 100 for channel C123;
no concurrent update happens during the 100 ms wait. -/
def stW : SlackSt :=
  { susers := fun _ => none,
    msgLast := fun c => if c = "C123" then "100" else "",
    msgLastAfterWait := fun c => if c = "C123" then "100" else "" }

/-- An inbound copy of the just-sent message: own sender, channel C123,
timestamp 100. -/
def evSupp : MessageEvent :=
  { user := "UME", channel := "C123", timestamp := "100", threadTimestamp := "",
    subType := "", subMessage := none, deletedTimestamp := "", botID := "",
    username := "", text := "hello", attachments := [], files := [] }

/-- The same event carrying timestamp 101 instead. -/
def evFwd : MessageEvent := { evSupp with timestamp := "101" }

def ghostMe : UserInfo := createUser cfgW (some meUser)

def ghostReact : UserInfo := createUser cfgW (some reactUser)

/-- Recorded last-sent id 200 for channel C1. -/
def stE1 : SlackSt :=
  { susers := fun _ => none,
    msgLast := fun c => if c = "C1" then "200" else "",
    msgLastAfterWait := fun c => if c = "C1" then "200" else "" }

/-- Recorded last-sent id 100 on every channel. -/
def stE2 : SlackSt :=
  { susers := fun _ => none, msgLast := fun _ => "100",
    msgLastAfterWait := fun _ => "100" }

end SlackB

/-! ### Theorems -/

theorem splitListOn_ne_nil (c : Char) (l : List Char) : splitListOn c l ≠ [] := by
  cases l with
  | nil => simp [splitListOn]
  | cons a rest =>
    simp only [splitListOn]
    split
    · simp
    · split <;> simp

theorem goSplitLines_ne_nil (s : String) : goSplitLines s ≠ [] :=
  splitListOn_ne_nil '\n' s.data

theorem goListLess_irrefl (l : List Char) : goListLess l l = false := by
  induction l with
  | nil => rfl
  | cons a as ih => simp [goListLess, ih]

theorem goStrLess_irrefl (a : String) : goStrLess a a = false :=
  goListLess_irrefl a.data

namespace Irckit

/-- Claim C1 (amended): immediately after `Channel` constructs a channel for
a fresh backend id, the id-keyed and the name-keyed entries both reference
the new instance; and for any channel whose name-keyed entry still
references it, `UnlinkChannel` removes both the name-keyed and the id-keyed
entries.  (The unamended claim fails when a later channel reports the same
display name: see the counterexample.) -/
theorem channel_dual_key_unlink (env : BridgeEnv) (st : ServerState) (cid : String)
    (hfresh : st.channels cid = none) :
    ((channelGet env st cid).2.channels cid = some (channelGet env st cid).1
      ∧ (channelGet env st cid).2.channels (channelGet env st cid).1.name
          = some (channelGet env st cid).1)
    ∧ (∀ (st2 : ServerState) (ch : Chan), st2.channels ch.name = some ch →
        (unlinkChannel st2 ch).channels ch.name = none
        ∧ (unlinkChannel st2 ch).channels ch.cid = none) := by
  constructor
  · constructor
    · simp only [channelGet, hfresh]
      split <;> simp
    · simp only [channelGet, hfresh]
      simp
  · intro st2 ch h2
    simp [unlinkChannel, h2]

/-- Witness for channel_dual_key_unlink: channel C1 named town, created in
the empty registry, then unlinked. -/
theorem channel_dual_key_unlink_witness :
    (stT1.channels "C1" = some chT1 ∧ stT1.channels chT1.name = some chT1)
    ∧ ((unlinkChannel stT1 chT1).channels chT1.name = none
        ∧ (unlinkChannel stT1 chT1).channels chT1.cid = none) :=
  ⟨(channel_dual_key_unlink envTown emptyServer "C1" rfl).1,
   (channel_dual_key_unlink envTown emptyServer "C1" rfl).2 stT1 chT1 rfl⟩

/-- Counterexample to claim C1 as stated: after channel C1 (display name
dup) and then channel C2 (same display name) are created, C1 is still
registered under its id, yet the name lookup yields the other instance, and
UnlinkChannel on the first channel removes neither entry: its id entry
survives. -/
theorem channel_dual_key_violated :
    stD2.channels "C1" = some chD1
    ∧ chD1.cid = "C1"
    ∧ chD1.name = "#dup"
    ∧ stD2.channels "#dup" ≠ some chD1
    ∧ (unlinkChannel stD2 chD1).channels "C1" = some chD1
    ∧ (unlinkChannel stD2 chD1).channels "#dup" = some chD2 := by decide

/-- Claim C3 (amended): Quit removes the user from the registry users map
under its uid (leaving every other key unchanged), invokes the Bridge
logout and closes the connection; it does not touch the channels map nor
any channel membership.  Removing the user from its channels and unlinking
emptied channels is not part of Quit. -/
theorem quit_registry_only (st : ServerState) (u : User) (message : String) :
    (quit st u message).st.users u.uid = none
    ∧ (∀ k, k ≠ u.uid → (quit st u message).st.users k = st.users k)
    ∧ (quit st u message).st.channels = st.channels
    ∧ (quit st u message).st.chanMembers = st.chanMembers
    ∧ (quit st u message).bridgeLogout = true
    ∧ (quit st u message).connClosed = true := by
  refine ⟨by simp [quit], fun k hk => by simp [quit, hk], rfl, rfl, rfl, rfl⟩

/-- Witness for quit_registry_only at the concrete registry stQuit. -/
theorem quit_registry_only_witness :
    (quit stQuit userAlice "bye").st.users "alice" = none
    ∧ (quit stQuit userAlice "bye").st.users "bob" = stQuit.users "bob" :=
  ⟨(quit_registry_only stQuit userAlice "bye").1,
   (quit_registry_only stQuit userAlice "bye").2.1 "bob" (by decide)⟩

/-- Counterexample to claim C3 as stated: alice is the sole member of
channel C1; after Quit she is gone from the users map, but she is still a
member of C1 and the channel, though emptied of registered users, is still
linked in the channels map. -/
theorem quit_leaves_channels :
    (quit stQuit userAlice "bye").st.users "alice" = none
    ∧ (quit stQuit userAlice "bye").st.chanMembers = [("C1", ["alice"])]
    ∧ (quit stQuit userAlice "bye").st.channels "C1" = some chT1 := by decide

end Irckit

namespace Irckit

/-- Membership in the modelled VisibleTo set. -/
theorem mem_visibleTo (st : ServerState) (uid v : String) :
    v ∈ visibleTo st uid ↔
      v ≠ uid ∧ ∃ p ∈ st.chanMembers, uid ∈ p.2 ∧ v ∈ p.2 := by
  simp only [visibleTo, List.mem_dedup, List.mem_filter, List.mem_flatMap,
    decide_eq_true_eq]
  tauto

/-- Claim C7: RenameUser first truncates the new nick to MaxNickLen; when
the truncated nick normalizes to an existing registry key it returns false,
sends a 433 nickname-in-use reply to the user and changes nothing; otherwise
it returns true, re-keys the user under the new normalized nick in the one
locked step (old key deleted, new key inserted, all other keys untouched)
and sends the NICK change notification to the user and to every user
sharing at least one channel with it. -/
theorem renameUser_spec (st : ServerState) (u : User) (newNick : String) :
    (∀ w, st.users (ID (truncNick st.maxNickLen newNick)) = some w →
      renameUser st u newNick = (st, false,
        [{ toNick := u.nick, pfx := "", command := ERR_NICKNAMEINUSE,
           params := [truncNick st.maxNickLen newNick],
           trailing := "Nickname is already in use" }]))
    ∧ (st.users (ID (truncNick st.maxNickLen newNick)) = none →
        (renameUser st u newNick).2.1 = true
        ∧ (renameUser st u newNick).1.users (ID (truncNick st.maxNickLen newNick))
            = some { u with nick := truncNick st.maxNickLen newNick }
        ∧ (ID (truncNick st.maxNickLen newNick) ≠ u.uid →
            (renameUser st u newNick).1.users u.uid = none)
        ∧ (∀ k, k ≠ ID (truncNick st.maxNickLen newNick) → k ≠ u.uid →
            (renameUser st u newNick).1.users k = st.users k)
        ∧ (renameUser st u newNick).2.2 =
            ({ toNick := u.nick, pfx := u.nick, command := "NICK",
               params := [truncNick st.maxNickLen newNick], trailing := "" } : IrcOut)
            :: (visibleTo st u.uid).map (fun t =>
                 { toNick := t, pfx := u.nick, command := "NICK",
                   params := [truncNick st.maxNickLen newNick], trailing := "" })
        ∧ (∀ v, v ∈ visibleTo st u.uid ↔
             v ≠ u.uid ∧ ∃ p ∈ st.chanMembers, u.uid ∈ p.2 ∧ v ∈ p.2)) := by
  constructor
  · intro w hw
    simp [renameUser, hw]
  · intro hnone
    refine ⟨by simp [renameUser, hnone],
            by simp [renameUser, hnone],
            fun hne => by simp [renameUser, hnone, hne, Ne.symm hne],
            fun k hk1 hk2 => by simp [renameUser, hnone, hk1, hk2],
            by simp [renameUser, hnone],
            fun v => mem_visibleTo st u.uid v⟩

/-- Witness for renameUser_spec: renaming Bob to Alice collides with the
registered alice and fails; renaming Bob to carol succeeds and notifies Bob
and alice, who shares channel C1 with him. -/
theorem renameUser_spec_witness :
    renameUser stRen userBob "Alice" = (stRen, false,
      [{ toNick := "Bob", pfx := "", command := ERR_NICKNAMEINUSE,
         params := ["Alice"], trailing := "Nickname is already in use" }])
    ∧ (renameUser stRen userBob "carol").2.1 = true
    ∧ (renameUser stRen userBob "carol").2.2 =
        [{ toNick := "Bob", pfx := "Bob", command := "NICK",
           params := ["carol"], trailing := "" },
         { toNick := "alice", pfx := "Bob", command := "NICK",
           params := ["carol"], trailing := "" }] :=
  ⟨(renameUser_spec stRen userBob "Alice").1 userAlice (by decide),
   ((renameUser_spec stRen userBob "carol").2 (by decide)).1,
   (((renameUser_spec stRen userBob "carol").2 (by decide)).2.2.2.2.1).trans (by decide)⟩

/-- Claim C9: when the truncated new nick normalizes to the users own
current key, RenameUser hits its collision check (which does not exempt the
user itself), returns false, reports nickname-in-use and changes nothing; a
case-only change of ones own nick therefore always fails. -/
theorem self_rename_collides (st : ServerState) (u : User) (newNick : String)
    (hreg : st.users u.uid = some u)
    (hsame : ID (truncNick st.maxNickLen newNick) = u.uid) :
    renameUser st u newNick = (st, false,
      [{ toNick := u.nick, pfx := "", command := ERR_NICKNAMEINUSE,
         params := [truncNick st.maxNickLen newNick],
         trailing := "Nickname is already in use" }]) := by
  have h : st.users (ID (truncNick st.maxNickLen newNick)) = some u := by
    rw [hsame]; exact hreg
  simp [renameUser, h]

/-- Witness for self_rename_collides: Alice (keyed alice) asking for the
all-caps spelling of her own nick is refused. -/
theorem self_rename_collides_witness :
    renameUser stSelf userMixed "ALICE" = (stSelf, false,
      [{ toNick := "Alice", pfx := "", command := ERR_NICKNAMEINUSE,
         params := ["ALICE"], trailing := "Nickname is already in use" }]) :=
  self_rename_collides stSelf userMixed "ALICE" (by decide) (by decide)

end Irckit

namespace Irckit

/-- Running the handshake over a concatenation: the second part only matters
when the first leaves the loop pending. -/
theorem hrun_append (maxLen : Nat) (st : HState) (t1 t2 : List HIn) :
    hrun maxLen st (t1 ++ t2) =
      match hrun maxLen st t1 with
      | .pending st2 => hrun maxLen st2 t2
      | .ok st2 => .ok st2
      | .failed us => .failed us := by
  induction t1 generalizing st with
  | nil => simp [hrun]
  | cons x rest ih =>
    cases x with
    | timeout => simp [hrun]
    | nilMsg =>
      by_cases h : st.budget - 1 = 0 <;> simp [hrun, h, ih]
    | msg m =>
      by_cases h : st.budget - 1 = 0
      · simp [hrun, h]
      · simp only [List.cons_append, hrun, if_neg h]
        cases hp : procMsg maxLen { st with budget := st.budget - 1 } m with
        | inl st2 => simp [ih]
        | inr st2 => simp

/-- The field switch preserves the users map and the budget counter. -/
theorem procFields_pres (st : HState) (m : IrcMsg) :
    (procFields st m).users = st.users ∧ (procFields st m).budget = st.budget := by
  simp only [procFields]
  split
  · exact ⟨rfl, rfl⟩
  · split
    · exact ⟨rfl, rfl⟩
    · split <;> exact ⟨rfl, rfl⟩

/-- Every continue branch of the message processing preserves the users map
and the budget counter. -/
theorem procMsg_inl_pres (maxLen : Nat) (st st2 : HState) (m : IrcMsg)
    (h : procMsg maxLen st m = .inl st2) :
    st2.users = st.users ∧ st2.budget = st.budget := by
  simp only [procMsg] at h
  split at h
  · cases h; exact ⟨rfl, rfl⟩
  · split at h
    · cases h; exact procFields_pres st (adjParams m)
    · split at h
      · cases h; exact procFields_pres st (adjParams m)
      · cases h

/-- A pending handshake run has consumed every recorded arrival without
mutating the users map: the budget dropped by exactly the arrival count. -/
theorem hrun_pending_pres (maxLen : Nat) (st st2 : HState) (tr : List HIn)
    (h : hrun maxLen st tr = .pending st2) :
    st2.users = st.users ∧ st2.budget + tr.length = st.budget := by
  induction tr generalizing st with
  | nil =>
    simp [hrun] at h
    simp [h]
  | cons x rest ih =>
    cases x with
    | timeout => simp [hrun] at h
    | nilMsg =>
      by_cases hb : st.budget - 1 = 0
      · simp [hrun, hb] at h
      · simp only [hrun, if_neg hb] at h
        obtain ⟨hu, hbud⟩ := ih _ h
        refine ⟨hu, ?_⟩
        dsimp only at hbud
        simp only [List.length_cons]
        omega
    | msg m =>
      by_cases hb : st.budget - 1 = 0
      · simp [hrun, hb] at h
      · simp only [hrun, if_neg hb] at h
        cases hp : procMsg maxLen { st with budget := st.budget - 1 } m with
        | inl st3 =>
          rw [hp] at h
          obtain ⟨hu3, hb3⟩ := procMsg_inl_pres _ _ _ _ hp
          obtain ⟨hu, hbud⟩ := ih _ h
          refine ⟨hu.trans hu3, ?_⟩
          simp only [List.length_cons]
          rw [hb3] at hbud
          dsimp only at hbud
          omega
        | inr st3 => rw [hp] at h; cases h

/-- Claim C4: whenever the handshake loop is still awaiting registration
(no NICK+USER completion yet), a 10 second silence (the timer firing) makes
it fail terminally, and so does the arrival of the twentieth consumed
message when nineteen arrivals have already been consumed; in both cases
Connect returns the handshake-failed error, the connection is closed, and
the users map is exactly the initial one, so the connecting user never
appears in it. -/
theorem handshake_fail_terminal (env : HCfg) (pre rest : List HIn) (st2 : HState)
    (hp : hrun env.maxNickLen (hInit env) pre = .pending st2) :
    connectRun env (pre ++ HIn.timeout :: rest)
      = { handshakeErr := true, connClosed := true, users := env.users0 }
    ∧ (pre.length = 19 → ∀ m, connectRun env (pre ++ HIn.msg m :: rest)
      = { handshakeErr := true, connClosed := true, users := env.users0 }) := by
  obtain ⟨hu, hb⟩ := hrun_pending_pres _ _ _ _ hp
  have husers : st2.users = env.users0 := by simpa [hInit] using hu
  constructor
  · unfold connectRun
    rw [hrun_append, hp]
    simp [hrun, husers]
  · intro hlen m
    have hbud : st2.budget = 1 := by
      rw [hlen] at hb
      simp [hInit, handshakeMsgTolerance] at hb
      omega
    unfold connectRun
    rw [hrun_append, hp]
    simp [hrun, hbud, husers]

/-- Witness for handshake_fail_terminal: nineteen PING messages leave the
handshake pending with one receive left; then either the timer fires or a
twentieth message arrives, and either way the connection fails closed with
an unchanged (empty) registry. -/
theorem handshake_fail_terminal_witness :
    connectRun envH (pre19 ++ [HIn.timeout])
      = { handshakeErr := true, connClosed := true, users := envH.users0 }
    ∧ connectRun envH (pre19 ++ [HIn.msg pingMsg])
      = { handshakeErr := true, connClosed := true, users := envH.users0 } :=
  ⟨(handshake_fail_terminal envH pre19 [] st19 rfl).1,
   (handshake_fail_terminal envH pre19 [] st19 rfl).2 rfl pingMsg⟩

end Irckit

namespace SlackB

/-- Claim C5 (amended): the translator waits about 100 ms and re-reads the
recorded last-sent id exactly once precisely when the recorded id compares
strictly below the inbound event timestamp (recorded strictly earlier); the
suppression decision then uses the re-read value.  When the recorded id is
not below the event timestamp no wait occurs and the first read decides.
(The unamended claim has the condition inverted: see the counterexample.) -/
theorem echo_wait_iff (st : SlackSt) (ch ts : String) :
    ((echoCheck st ch ts).waited = true ↔ goStrLess (st.msgLast ch) ts = true)
    ∧ ((echoCheck st ch ts).waited = true →
        (echoCheck st ch ts).suppress = (st.msgLastAfterWait ch == ts))
    ∧ ((echoCheck st ch ts).waited = false →
        (echoCheck st ch ts).suppress = (st.msgLast ch == ts)) := by
  by_cases h : goStrLess (st.msgLast ch) ts = true <;> simp [echoCheck, h]

/-- Witness for echo_wait_iff: recorded id 100, inbound timestamp 300. -/
theorem echo_wait_iff_witness :
    (echoCheck stE2 "C" "300").waited = true
    ∧ (echoCheck stE2 "C" "300").suppress = (stE2.msgLastAfterWait "C" == "300") :=
  ⟨(echo_wait_iff stE2 "C" "300").1.mpr (by decide),
   (echo_wait_iff stE2 "C" "300").2.1
     ((echo_wait_iff stE2 "C" "300").1.mpr (by decide))⟩

/-- Counterexample to claim C5 as stated: recorded last-sent id 200 on
channel C1, inbound timestamp 100.  The recorded id is not earlier than the
inbound timestamp, yet the translator does not wait: the code waits on
lastmsg below timestamp, the opposite of the claimed condition. -/
theorem echo_wait_condition_inverted :
    stE1.msgLast "C1" = "200"
    ∧ goStrLess "200" "100" = false
    ∧ (echoCheck stE1 "C1" "100").waited = false := by decide

/-- Claim C10: createUser maps a nil backend user to the zero-valued (yet
well-defined) UserInfo instead of failing, so GetUser still yields that
ghost identity when the cache misses and the API lookup errors (getSlackUser
returning nil). -/
theorem createUser_nil_total (cfg : SlackCfg) (obs : SlackObs) (st : SlackSt)
    (uid : String) (hmiss : st.susers uid = none) (herr : obs.apiGetUser uid = none) :
    createUser cfg none = emptyUserInfo
    ∧ getSlackUser obs st uid = none
    ∧ getUser cfg obs st uid = emptyUserInfo := by
  refine ⟨rfl, ?_, ?_⟩ <;> simp [getUser, getSlackUser, hmiss, herr, createUser]

/-- Witness for createUser_nil_total: the unknown user id U9 under the
concrete lookup environment. -/
theorem createUser_nil_total_witness :
    createUser cfgW none = emptyUserInfo
    ∧ getSlackUser obsW stW "U9" = none
    ∧ getUser cfgW obsW stW "U9" = emptyUserInfo :=
  createUser_nil_total cfgW obsW stW "U9" (by decide) (by decide)

/-- Claim C6 (amended): a reaction-added or reaction-removed event is
dropped silently (no event enqueued, no error surfaced) exactly when its
acting user cannot be resolved; the referenced target message is never
resolved against any message store — the synthesized notice simply embeds
the formatted target timestamp — so an unresolvable target alone does not
drop the event. -/
theorem reaction_drop_iff_user_unresolved (cfg : SlackCfg) (obs : SlackObs)
    (user channel its reaction : String) :
    (obs.getUserInfo user = none →
      handleReactionAdded cfg obs user channel its reaction = []
      ∧ handleReactionRemoved cfg obs user channel its reaction = [])
    ∧ (∀ su, obs.getUserInfo user = some su →
      handleReactionAdded cfg obs user channel its reaction ≠ []
      ∧ handleReactionRemoved cfg obs user channel its reaction ≠ []) := by
  constructor
  · intro hnone
    constructor <;>
      simp [handleReactionAdded, handleReactionRemoved, handleActionMisc, hnone]
  · intro su hsu
    constructor <;>
      · simp only [handleReactionAdded, handleReactionRemoved, handleActionMisc, hsu]
        split <;> simp

/-- Witness for reaction_drop_iff_user_unresolved: the unknown user UX is
dropped, the known user U7 is not. -/
theorem reaction_drop_iff_user_unresolved_witness :
    (handleReactionAdded cfgW obsW "UX" "C9" "111.222" "+1" = []
      ∧ handleReactionRemoved cfgW obsW "UX" "C9" "111.222" "+1" = [])
    ∧ (handleReactionAdded cfgW obsW "U7" "C9" "111.222" "+1" ≠ []
      ∧ handleReactionRemoved cfgW obsW "U7" "C9" "111.222" "+1" ≠ []) :=
  ⟨(reaction_drop_iff_user_unresolved cfgW obsW "UX" "C9" "111.222" "+1").1 (by decide),
   (reaction_drop_iff_user_unresolved cfgW obsW "U7" "C9" "111.222" "+1").2
     reactUser (by decide)⟩

/-- Counterexample to claim C6 as stated: a reaction-added event referencing
target timestamp 111.222 — which matches nothing, as the translator keeps no
store of messages at all — is not dropped: with its acting user resolvable,
one informational channel-message event is enqueued. -/
theorem reaction_unresolved_target_not_dropped :
    handleReactionAdded cfgW obsW "U7" "C9" "111.222" "+1"
      = [BEvent.channelMessage "[M 111.222] Added reaction :+1:" "C9" ghostReact] := by
  decide

end SlackB

namespace SlackB

/-- The attachment body loop started at row index i (i at most 5): when the
remaining rows push the total past six, the output is exactly 7 - i lines
ending in the truncation marker. -/
theorem attachBodyLines_truncates (l : List String) :
    ∀ i, i ≤ 5 → 6 < l.length + i →
      (attachBodyLines i l).length = 7 - i
      ∧ (attachBodyLines i l).getLast? = some "> ..." := by
  induction l with
  | nil =>
    intro i h5 h6
    simp at h6
    omega
  | cons row rest ih =>
    intro i h5 h6
    by_cases hi : i > 4
    · have h5eq : i = 5 := by omega
      subst h5eq
      simp [attachBodyLines]
    · have h5x : i + 1 ≤ 5 := by omega
      have h6x : 6 < rest.length + (i + 1) := by
        simp only [List.length_cons] at h6
        omega
      obtain ⟨hlen, hlast⟩ := ih (i + 1) h5x h6x
      simp only [attachBodyLines, if_neg hi]
      constructor
      · simp only [List.length_cons, hlen]
        omega
      · cases hr : attachBodyLines (i + 1) rest with
        | nil => rw [hr] at hlen; simp at hlen; omega
        | cons b tl =>
          rw [hr] at hlast
          rw [List.getLast?_cons_cons]
          exact hlast

/-- Claim C8: when an attachment body has more than attachLineCap (six)
lines, the rendered output for that body is exactly attachLineCap + 1 lines,
the last being the single truncation marker. -/
theorem attach_body_truncation (t : String)
    (h : attachLineCap < (goSplitLines t).length) :
    (flattenAttachBody t).length = attachLineCap + 1
    ∧ (flattenAttachBody t).getLast? = some "> ..." := by
  have := attachBodyLines_truncates (goSplitLines t) 0 (by omega)
    (by simpa [attachLineCap] using h)
  simpa [flattenAttachBody, attachLineCap] using this

/-- Witness for attach_body_truncation: a seven-line attachment body. -/
theorem attach_body_truncation_witness :
    (flattenAttachBody "a\nb\nc\nd\ne\nf\ng").length = attachLineCap + 1
    ∧ (flattenAttachBody "a\nb\nc\nd\ne\nf\ng").getLast? = some "> ..." :=
  attach_body_truncation "a\nb\nc\nd\ne\nf\ng" (by decide)

end SlackB

namespace SlackB

/-- Claim C2: for an inbound message event whose sender is the local
account, (i) when the per-channel recorded last-sent id equals the event id
the event is suppressed entirely, producing zero emitted events; (ii) when
the recorded id differs (and no concurrent send updates the record during
the 100 ms wait), a plain channel message from the own account is forwarded:
one channel-message event per text line, and at least one event. -/
theorem echo_suppression_and_forwarding (cfg : SlackCfg) (obs : SlackObs)
    (st : SlackSt) (rmsg : MessageEvent) (su : SlackUser)
    (hown : rmsg.user = cfg.myID) :
    (st.msgLast rmsg.channel = rmsg.timestamp →
      handleSlackActionPost cfg obs st rmsg = [])
    ∧ (st.msgLast rmsg.channel ≠ rmsg.timestamp →
       st.msgLastAfterWait rmsg.channel = st.msgLast rmsg.channel →
       rmsg.subType = "" →
       obs.getUserInfo cfg.myID = some su →
       rmsg.text ≠ "" →
       rmsg.attachments = [] →
       rmsg.files = [] →
       rmsg.threadTimestamp = "" →
       goStartsWith rmsg.channel "D" = false →
       handleSlackActionPost cfg obs st rmsg =
         (goSplitLines rmsg.text).map (fun m =>
           BEvent.channelMessage (cfg.cleanup m) rmsg.channel
             (createUser cfg (some su)))
       ∧ handleSlackActionPost cfg obs st rmsg ≠ []) := by
  constructor
  · intro hrec
    have hsup : (echoCheck st rmsg.channel rmsg.timestamp).suppress = true := by
      simp [echoCheck, hrec, goStrLess_irrefl]
    simp [handleSlackActionPost, hown, hsup]
  · intro hdiff hstable hsub husr htext hatt hfiles hthread hchan
    have hsup : (echoCheck st rmsg.channel rmsg.timestamp).suppress = false := by
      by_cases hlt : goStrLess (st.msgLast rmsg.channel) rmsg.timestamp = true <;>
        simp [echoCheck, hlt, hstable, hdiff]
    have hout : handleSlackActionPost cfg obs st rmsg =
        (goSplitLines rmsg.text).map (fun m =>
          BEvent.channelMessage (cfg.cleanup m) rmsg.channel
            (createUser cfg (some su))) := by
      simp [handleSlackActionPost, hsup, hsub, getSlackUserFromMessage, hown,
        husr, buildMsgs, htext, hatt, hfiles, hthread, hchan]
    refine ⟨hout, ?_⟩
    rw [hout]
    simp [goSplitLines_ne_nil]

/-- Witness for echo_suppression_and_forwarding: with (C123, 100) recorded
as last-sent, the own-message event carrying id 100 on C123 emits nothing,
while the same event carrying id 101 is forwarded as one channel message. -/
theorem echo_suppression_and_forwarding_witness :
    handleSlackActionPost cfgW obsW stW evSupp = []
    ∧ handleSlackActionPost cfgW obsW stW evFwd
        = [BEvent.channelMessage "hello" "C123" ghostMe] :=
  ⟨(echo_suppression_and_forwarding cfgW obsW stW evSupp meUser rfl).1 (by decide),
   (((echo_suppression_and_forwarding cfgW obsW stW evFwd meUser rfl).2
      (by decide) rfl rfl (by decide) (by decide) rfl rfl rfl (by decide)).1).trans
     (by decide)⟩

end SlackB
